import Mathlib

/-!
A shallow embedding of the scroll/shade core of
`src/client/components/iomodules/SheetMusicOutput/SheetMusicOutput.jsx`.

The component is a React class; its mutation surface splits into
* React state (`this.state`, written through `setState`): inside an event
  handler React batches `setState`, so reads of `this.state` later in the same
  handler still see the values committed before the handler ran.  The model
  therefore computes every handler's reads against the entry state and commits
  the pending update at the end of the handler.
* plain instance fields (`this.currentPulseTime`, `this.lastScrollPos`,
  `this.isProgrammaticScrolling`, ...), which mutate synchronously and are
  threaded through directly.
* calls to external collaborators (the vendored `MidiSheetMusic` renderer, the
  playback controller's `setCurrentMs`, the persistence collaborator
  `props.saveData`, the `Easing` timer), recorded as an event trace.

JavaScript numbers are modelled as `Rat`.  The single place where the rational
and the IEEE semantics could part ways is the division in `noteOff`
(`currentPulseTime / pulsesPerMs` with `pulsesPerMs = 0` gives `NaN` in JS and
`0` here); the comparison guarding the seek evaluates the same way in both
because it is only reached when `selectionEndMs >= 0`.
-/

namespace Piano

/-- Modelled from the spec: the interpolation utility `src/client/util/lerp.js`
imported by the component is not present under `src/`; spec section 4.1 states
`lerp(start, end, t) = start + (end - start) * t`, with no clamping. -/
def lerp (a b t : Rat) : Rat := a + (b - a) * t

/-- Snapshot shape handed to the persistence collaborator `props.saveData`.
The `saveData` method (lines 204-213) always includes an `autoScroll` key; the
direct call `this.props.saveData(currentSelection)` at line 200 passes an
object without one, hence the `Option`. -/
structure SaveData where
  selectionStartMs : Rat
  selectionEndMs : Rat
  selectionStartPulse : Rat
  selectionEndPulse : Rat
  autoScroll : Option Bool
deriving DecidableEq

/-- The four-field `currentSelection` object built inside `setSelection`
(lines 184-195) and the argument shape of `updateSelection`. -/
structure SelectionBounds where
  selectionStartMs : Rat
  selectionEndMs : Rat
  selectionStartPulse : Rat
  selectionEndPulse : Rat
deriving DecidableEq

/-- React state of the component: the four selection fields initialised in the
constructor (lines 32-37) plus the keys added later by `setState` calls
(`autoScroll`, `isSelecting`, `lastClickMs`, `lastClickPulse`; absent keys are
modelled by their falsy/zero defaults). -/
structure RState where
  selectionStartMs : Rat
  selectionEndMs : Rat
  selectionStartPulse : Rat
  selectionEndPulse : Rat
  autoScroll : Bool
  isSelecting : Bool
  lastClickMs : Rat
  lastClickPulse : Rat
deriving DecidableEq

/-- The vendored rendering collaborator `MidiSheetMusic.SheetMusic`, treated as
a black box per spec section 6.  `shade cur prev` is the suggested scroll
offset returned by `ShadeNotes(cur, prev, true)`; `pulseForPoint` is
`PulseTimeForPoint`.  `selectionStartPulse`/`selectionEndPulse` are the
collaborator's mutable selection fields written by `updateSelection`. -/
structure Sheet where
  width : Rat
  height : Rat
  shade : Rat → Rat → Rat
  pulseForPoint : Rat → Rat → Rat
  selectionStartPulse : Rat
  selectionEndPulse : Rat

/-- Observable external effects, recorded in order of occurrence. -/
inductive Ev where
  | shade (cur prev : Rat)
  | seek (ms : Rat)
  | save (d : SaveData)
  | animStart (start target : Rat)
  | paint
deriving DecidableEq

/-- The component: committed React state `st`, instance fields, the live DOM
scroll offset of `divCanvasScroll` (`scrollTop`), the at-most-one in-flight
scroll animation (start offset, target offset) and the effect trace. -/
structure Comp where
  st : RState
  sheetMusic : Option Sheet
  pulsesPerMs : Rat
  totalPulses : Rat
  measure : Rat
  currentPulseTime : Rat
  prevPulseTime : Rat
  lastScrollPos : Rat
  isProgrammaticScrolling : Bool
  isScrolling : Bool
  scrollTop : Rat
  activeAnim : Option (Rat × Rat)
  events : List Ev

/-- The `getScrollOffset` (lines 108-110). -/
def getScrollOffset (s : Comp) : Rat := s.scrollTop

/-- The `scrollTo(scrollPos)` (lines 154-165): guarded by `scrollPos >= 0`,
`scrollPos !== this.lastScrollPos` and `this.state.autoScroll`.  When the guard
passes it records the interpolation start (the current live offset), flags
`isScrolling` and starts one `Easing.event` run; the run's asynchronous `data`
ticks are `animTick` below and do not fire inside this call. -/
def scrollTo (scrollPos : Rat) (s : Comp) : Comp :=
  if 0 ≤ scrollPos ∧ scrollPos ≠ s.lastScrollPos ∧ s.st.autoScroll = true then
    { s with lastScrollPos := scrollPos, isScrolling := true,
             activeAnim := some (s.scrollTop, scrollPos),
             events := s.events ++ [Ev.animStart s.scrollTop scrollPos] }
  else s

/-- One asynchronous `data` tick of the `Easing.event` timer (lines 160-163):
flags the scroll as programmatic and writes the interpolated offset to the live
scroll position. -/
def animTick (t : Rat) (s : Comp) : Comp :=
  match s.activeAnim with
  | none => s
  | some (start, target) =>
      { s with isProgrammaticScrolling := true, scrollTop := lerp start target t }

/-- The `shadeNotes(currentPulseTime, prevPulseTime)` (lines 141-152): quiet no-op
without a score; otherwise translates the overlay context, delegates to
`sheetMusic.ShadeNotes` and feeds the suggested offset to `scrollTo`.  The
canvas-context translate/untranslate pair has no observable state here. -/
def shadeNotes (currentPulseTime prevPulseTime : Rat) (s : Comp) : Comp :=
  match s.sheetMusic with
  | none => s
  | some sh =>
      scrollTo (sh.shade currentPulseTime prevPulseTime)
        { s with events := s.events ++ [Ev.shade currentPulseTime prevPulseTime] }

/-- The `paintSheetMusic` (lines 112-128): quiet no-op without a score; repaints the
main canvas via `OnPaint`, clears the overlay, then re-shades with the
one-measure lookback pair. -/
def paintSheetMusic (s : Comp) : Comp :=
  match s.sheetMusic with
  | none => s
  | some _ =>
      shadeNotes s.currentPulseTime (s.currentPulseTime - s.measure)
        { s with events := s.events ++ [Ev.paint] }

/-- The `scroll` (lines 130-139), the (debounced) scroll-event handler: re-shades
with the one-measure lookback pair, disables auto-scroll on a user-initiated
event, and consumes the programmatic flag. -/
def scroll (s : Comp) : Comp :=
  let s1 := shadeNotes s.currentPulseTime (s.currentPulseTime - s.measure) s
  let s2 := if s1.st.autoScroll = true ∧ s1.isProgrammaticScrolling = false then
              { s1 with st := { s1.st with autoScroll := false } }
            else s1
  { s2 with isProgrammaticScrolling := false }

/-- The `animate(playerTimeMillis)` (lines 167-171), the playback-tick handler. -/
def animate (playerTimeMillis : Rat) (s : Comp) : Comp :=
  let cur := playerTimeMillis * s.pulsesPerMs
  let s1 := shadeNotes cur s.prevPulseTime { s with currentPulseTime := cur }
  { s1 with prevPulseTime := cur }

/-- The `noteOff` (lines 173-180): the selection-loop check; seeks the playback
controller back to the selection start when both bounds are set and the current
time is past the end bound. -/
def noteOff (s : Comp) : Comp :=
  if 0 ≤ s.st.selectionStartMs ∧ 0 ≤ s.st.selectionEndMs ∧
     s.st.selectionEndMs < s.currentPulseTime / s.pulsesPerMs then
    { s with events := s.events ++ [Ev.seek s.st.selectionStartMs] }
  else s

/-- The clicked pulse after the wrap-back adjustment of lines 57-61:
`PulseTimeForPoint`, minus one measure when past `totalPulses`. -/
def clickedPulse (sh : Sheet) (s : Comp) (x y : Rat) : Rat :=
  let p := sh.pulseForPoint x y
  if s.totalPulses < p then p - s.measure else p

/-- The state produced by a `click` on a loaded score (the body of lines
57-70).  Note `prevPulseTime` is computed from the raw clicked pulse before
the `totalPulses` wrap-back adjustment; the seek (`setCurrentMs`, line 64)
precedes the re-shade and the `setState`. -/
def clickResult (sh : Sheet) (x y : Rat) (s : Comp) : Comp :=
  let p := sh.pulseForPoint x y
  let prevPulseTime := p - s.measure
  let cur := if s.totalPulses < p then p - s.measure else p
  let lastClickMs := cur / s.pulsesPerMs
  let s1 := shadeNotes cur prevPulseTime
    { s with currentPulseTime := cur, prevPulseTime := prevPulseTime,
             events := s.events ++ [Ev.seek lastClickMs] }
  { s1 with st :=
    { s1.st with isSelecting := true, lastClickMs := lastClickMs,
                 lastClickPulse := cur } }

/-- The `click(evt)` (lines 55-71).  With no score loaded the dereference
`this.sheetMusic.PulseTimeForPoint` on line 57 throws a TypeError; `none`
models the raised error. -/
def click (x y : Rat) (s : Comp) : Option Comp :=
  match s.sheetMusic with
  | none => none
  | some sh => some (clickResult sh x y s)

/-- The `updateSelection(currentSelection)` (lines 215-222): quiet no-op without a
score; writes the selection pulses into the rendering collaborator, seeks the
playback controller to `this.state.selectionStartMs` — the committed React
state at call time, not any pending `setState` value — and repaints. -/
def updateSelection (cs : SelectionBounds) (s : Comp) : Comp :=
  match s.sheetMusic with
  | none => s
  | some sh =>
      paintSheetMusic
        { s with
            sheetMusic := some { sh with
              selectionStartPulse := cs.selectionStartPulse,
              selectionEndPulse := cs.selectionEndPulse },
            events := s.events ++ [Ev.seek s.st.selectionStartMs] }

/-- The `initSheetMusic` (lines 73-90): quiet no-op without a score; resizes the
canvases (pure DOM, not modelled) then calls `updateSelection(this.state)`. -/
def initSheetMusic (s : Comp) : Comp :=
  match s.sheetMusic with
  | none => s
  | some _ =>
      updateSelection ⟨s.st.selectionStartMs, s.st.selectionEndMs,
                       s.st.selectionStartPulse, s.st.selectionEndPulse⟩ s

/-- Payload of one `saveData(toMerge)` call (lines 204-213): the committed
state's five persisted fields with `toMerge` spread over the selection
fields. -/
def saveDataPayload (st : RState) (cs : SelectionBounds) : SaveData :=
  ⟨cs.selectionStartMs, cs.selectionEndMs, cs.selectionStartPulse,
   cs.selectionEndPulse, some st.autoScroll⟩

/-- Which bound `setSelection` marks; `none` models `setSelection(null)`, the
clear action. -/
inductive Bound where
  | selectionStart
  | selectionEnd
deriving DecidableEq

/-- The `currentSelection` object as built at the top of `setSelection`
(lines 184-195): cleared sentinels for the clear action, otherwise the
committed bounds with the marked one overwritten by the last click. -/
def selectionFor (prop : Option Bound) (st : RState) : SelectionBounds :=
  match prop with
  | none => ⟨-1, -1, 0, 0⟩
  | some Bound.selectionStart =>
      ⟨st.lastClickMs, st.selectionEndMs, st.lastClickPulse, st.selectionEndPulse⟩
  | some Bound.selectionEnd =>
      ⟨st.selectionStartMs, st.lastClickMs, st.selectionStartPulse, st.lastClickPulse⟩

/-- The `setSelection(prop)` (lines 182-202): builds `currentSelection` from the
committed state, calls `setState` (committed only at handler end, so the nested
reads of `this.state` in `updateSelection` and `saveData` still see the
pre-transition values), then `updateSelection(currentSelection)`, then the
`saveData` method, then `props.saveData(currentSelection)` directly once
more. -/
def setSelection (prop : Option Bound) (s : Comp) : Comp :=
  let cs : SelectionBounds := selectionFor prop s.st
  let s1 := updateSelection cs s
  let s2 := { s1 with events := s1.events ++
      [Ev.save (saveDataPayload s.st cs),
       Ev.save ⟨cs.selectionStartMs, cs.selectionEndMs, cs.selectionStartPulse,
                cs.selectionEndPulse, none⟩] }
  { s2 with st := { s2.st with
      selectionStartMs := cs.selectionStartMs,
      selectionEndMs := cs.selectionEndMs,
      selectionStartPulse := cs.selectionStartPulse,
      selectionEndPulse := cs.selectionEndPulse } }

/-- The `handleAutoScrollClick(evt)` (lines 224-228): toggles the preference and
persists it (the `saveData` payload spreads `{autoScroll: checked}` over the
committed state's snapshot). -/
def handleAutoScrollClick (checked : Bool) (s : Comp) : Comp :=
  { s with st := { s.st with autoScroll := checked },
           events := s.events ++
             [Ev.save ⟨s.st.selectionStartMs, s.st.selectionEndMs,
                       s.st.selectionStartPulse, s.st.selectionEndPulse,
                       some checked⟩] }

/-- The `loadData(data)` (lines 230-233): `setState(data)` then
`updateSelection(data)`; the latter's seek still reads the pre-load committed
state. -/
def loadData (d : SaveData) (s : Comp) : Comp :=
  let s1 := updateSelection ⟨d.selectionStartMs, d.selectionEndMs,
                             d.selectionStartPulse, d.selectionEndPulse⟩ s
  { s1 with st := { s1.st with
      selectionStartMs := d.selectionStartMs,
      selectionEndMs := d.selectionEndMs,
      selectionStartPulse := d.selectionStartPulse,
      selectionEndPulse := d.selectionEndPulse,
      autoScroll := d.autoScroll.getD s1.st.autoScroll } }

/-- Pairs `(current, prev)` among a list of events that are `ShadeNotes`
delegations. -/
def shadeOf (l : List Ev) : List (Rat × Rat) :=
  l.filterMap fun e =>
    match e with
    | Ev.shade c p => some (c, p)
    | _ => none

/-- Seek requests among a list of events. -/
def seekOf (l : List Ev) : List Rat :=
  l.filterMap fun e =>
    match e with
    | Ev.seek m => some m
    | _ => none

/-- Persistence snapshots among a list of events. -/
def saveOf (l : List Ev) : List SaveData :=
  l.filterMap fun e =>
    match e with
    | Ev.save d => some d
    | _ => none

/-- Animation runs among a list of events. -/
def runsOf (l : List Ev) : List (Rat × Rat) :=
  l.filterMap fun e =>
    match e with
    | Ev.animStart a b => some (a, b)
    | _ => none

/-- Repaints among a list of events. -/
def paintsOf (l : List Ev) : List Unit :=
  l.filterMap fun e =>
    match e with
    | Ev.paint => some ()
    | _ => none

/-- Pairs `(current, prev)` delegated to the collaborator's `ShadeNotes`. -/
def shadeCalls (s : Comp) : List (Rat × Rat) := shadeOf s.events

/-- Seek requests issued to the playback controller (`setCurrentMs`). -/
def seekCalls (s : Comp) : List Rat := seekOf s.events

/-- Snapshots written to the persistence collaborator (`props.saveData`). -/
def saveCalls (s : Comp) : List SaveData := saveOf s.events

/-- Number of scroll-animation runs started so far. -/
def runCount (s : Comp) : Nat := (runsOf s.events).length

/-- Number of `OnPaint` repaints of the main canvas so far. -/
def paintCount (s : Comp) : Nat := (paintsOf s.events).length

/-- A concrete rendering collaborator for the closed witnesses and
counterexamples. -/
def testSheet : Sheet where
  width := 800
  height := 4000
  shade := fun cur prev => cur + prev
  pulseForPoint := fun x y => x + 10 * y
  selectionStartPulse := 0
  selectionEndPulse := 0

/-- A concrete loaded component: `pulsesPerMsec = 2`, `measure = 50`. -/
def baseComp : Comp where
  st := ⟨-1, -1, 0, 0, false, false, 0, 0⟩
  sheetMusic := some testSheet
  pulsesPerMs := 2
  totalPulses := 10000
  measure := 50
  currentPulseTime := 0
  prevPulseTime := 0
  lastScrollPos := -1
  isProgrammaticScrolling := false
  isScrolling := false
  scrollTop := 0
  activeAnim := none
  events := []

/-- The same component before any score has loaded. -/
def unloadedComp : Comp := { baseComp with sheetMusic := none }

/-- The `baseComp` with the auto-scroll preference enabled. -/
def autoComp : Comp := { baseComp with st := { baseComp.st with autoScroll := true } }

/-- The `autoComp` in the middle of a programmatic scroll (the `Easing` tick has
just set the flag). -/
def progComp : Comp := { autoComp with isProgrammaticScrolling := true }

/-- The `baseComp` with a fully set selection `[500 ms, 600 ms]`. -/
def selComp : Comp :=
  { baseComp with st := { baseComp.st with
      selectionStartMs := 500, selectionEndMs := 600,
      selectionStartPulse := 1000, selectionEndPulse := 1200 } }

/-- The component after two playback ticks at 100 ms and 150 ms: with
`pulsesPerMs = 2` and `measure = 50` this leaves `currentPulseTime = 300` and
`prevPulseTime = 300`. -/
def twoTickComp : Comp := animate 150 (animate 100 baseComp)

/-- The `selComp` with playback already past the selection end:
`1300 / 2 = 650 ms > 600 ms`. -/
def loopComp : Comp := { selComp with currentPulseTime := 1300 }

theorem shadeOf_append (l l' : List Ev) :
    shadeOf (l ++ l') = shadeOf l ++ shadeOf l' := by
  simp [shadeOf, List.filterMap_append]

theorem seekOf_append (l l' : List Ev) :
    seekOf (l ++ l') = seekOf l ++ seekOf l' := by
  simp [seekOf, List.filterMap_append]

theorem saveOf_append (l l' : List Ev) :
    saveOf (l ++ l') = saveOf l ++ saveOf l' := by
  simp [saveOf, List.filterMap_append]

theorem runsOf_append (l l' : List Ev) :
    runsOf (l ++ l') = runsOf l ++ runsOf l' := by
  simp [runsOf, List.filterMap_append]

theorem paintsOf_append (l l' : List Ev) :
    paintsOf (l ++ l') = paintsOf l ++ paintsOf l' := by
  simp [paintsOf, List.filterMap_append]

theorem scrollTo_st (p : Rat) (s : Comp) : (scrollTo p s).st = s.st := by
  unfold scrollTo; split <;> rfl

theorem scrollTo_sheetMusic (p : Rat) (s : Comp) :
    (scrollTo p s).sheetMusic = s.sheetMusic := by
  unfold scrollTo; split <;> rfl

theorem scrollTo_pulsesPerMs (p : Rat) (s : Comp) :
    (scrollTo p s).pulsesPerMs = s.pulsesPerMs := by
  unfold scrollTo; split <;> rfl

theorem scrollTo_totalPulses (p : Rat) (s : Comp) :
    (scrollTo p s).totalPulses = s.totalPulses := by
  unfold scrollTo; split <;> rfl

theorem scrollTo_measure (p : Rat) (s : Comp) :
    (scrollTo p s).measure = s.measure := by
  unfold scrollTo; split <;> rfl

theorem scrollTo_currentPulseTime (p : Rat) (s : Comp) :
    (scrollTo p s).currentPulseTime = s.currentPulseTime := by
  unfold scrollTo; split <;> rfl

theorem scrollTo_prevPulseTime (p : Rat) (s : Comp) :
    (scrollTo p s).prevPulseTime = s.prevPulseTime := by
  unfold scrollTo; split <;> rfl

theorem scrollTo_isProgrammaticScrolling (p : Rat) (s : Comp) :
    (scrollTo p s).isProgrammaticScrolling = s.isProgrammaticScrolling := by
  unfold scrollTo; split <;> rfl

theorem scrollTo_scrollTop (p : Rat) (s : Comp) :
    (scrollTo p s).scrollTop = s.scrollTop := by
  unfold scrollTo; split <;> rfl

theorem scrollTo_shadeCalls (p : Rat) (s : Comp) :
    shadeCalls (scrollTo p s) = shadeCalls s := by
  unfold scrollTo; split
  · simp [shadeCalls, shadeOf, List.filterMap_append]
  · rfl

theorem scrollTo_seekCalls (p : Rat) (s : Comp) :
    seekCalls (scrollTo p s) = seekCalls s := by
  unfold scrollTo; split
  · simp [seekCalls, seekOf, List.filterMap_append]
  · rfl

theorem scrollTo_saveCalls (p : Rat) (s : Comp) :
    saveCalls (scrollTo p s) = saveCalls s := by
  unfold scrollTo; split
  · simp [saveCalls, saveOf, List.filterMap_append]
  · rfl

theorem scrollTo_paintCount (p : Rat) (s : Comp) :
    paintCount (scrollTo p s) = paintCount s := by
  unfold scrollTo; split
  · simp [paintCount, paintsOf, List.filterMap_append]
  · rfl

/-- When auto-scroll is off, `scrollTo` is an unconditional no-op. -/
theorem scrollTo_noop_of_not_autoScroll (p : Rat) (s : Comp)
    (h : s.st.autoScroll = false) : scrollTo p s = s := by
  unfold scrollTo
  rw [if_neg]
  intro hc
  rw [h] at hc
  exact absurd hc.2.2 Bool.false_ne_true

/-- A repeated identical target is an unconditional no-op. -/
theorem scrollTo_noop_of_eq_last (p : Rat) (s : Comp)
    (h : p = s.lastScrollPos) : scrollTo p s = s := by
  unfold scrollTo
  rw [if_neg]
  intro hc
  exact absurd h hc.2.1

/-- A negative target is an unconditional no-op. -/
theorem scrollTo_noop_of_neg (p : Rat) (s : Comp)
    (h : p < 0) : scrollTo p s = s := by
  unfold scrollTo
  rw [if_neg]
  intro hc
  exact absurd hc.1 (not_le.mpr h)

/-- When every guard passes, `scrollTo` starts exactly one animation run and
records the target as the last requested one. -/
theorem scrollTo_run (p : Rat) (s : Comp)
    (h0 : 0 ≤ p) (h1 : p ≠ s.lastScrollPos) (h2 : s.st.autoScroll = true) :
    runCount (scrollTo p s) = runCount s + 1 ∧ (scrollTo p s).lastScrollPos = p := by
  unfold scrollTo
  rw [if_pos ⟨h0, h1, h2⟩]
  constructor
  · simp [runCount, runsOf, List.filterMap_append]
  · rfl

theorem scrollTo_runCount_le (p : Rat) (s : Comp) :
    runCount (scrollTo p s) ≤ runCount s + 1 := by
  unfold scrollTo; split
  · simp [runCount, runsOf, List.filterMap_append]
  · exact Nat.le_succ _

theorem shadeNotes_st (c q : Rat) (s : Comp) : (shadeNotes c q s).st = s.st := by
  unfold shadeNotes
  cases hs : s.sheetMusic with
  | none => rfl
  | some sh => rw [scrollTo_st]

theorem shadeNotes_sheetMusic (c q : Rat) (s : Comp) :
    (shadeNotes c q s).sheetMusic = s.sheetMusic := by
  unfold shadeNotes
  split
  · rfl
  · rw [scrollTo_sheetMusic]

theorem shadeNotes_pulsesPerMs (c q : Rat) (s : Comp) :
    (shadeNotes c q s).pulsesPerMs = s.pulsesPerMs := by
  unfold shadeNotes
  cases hs : s.sheetMusic with
  | none => rfl
  | some sh => rw [scrollTo_pulsesPerMs]

theorem shadeNotes_totalPulses (c q : Rat) (s : Comp) :
    (shadeNotes c q s).totalPulses = s.totalPulses := by
  unfold shadeNotes
  cases hs : s.sheetMusic with
  | none => rfl
  | some sh => rw [scrollTo_totalPulses]

theorem shadeNotes_measure (c q : Rat) (s : Comp) :
    (shadeNotes c q s).measure = s.measure := by
  unfold shadeNotes
  cases hs : s.sheetMusic with
  | none => rfl
  | some sh => rw [scrollTo_measure]

theorem shadeNotes_currentPulseTime (c q : Rat) (s : Comp) :
    (shadeNotes c q s).currentPulseTime = s.currentPulseTime := by
  unfold shadeNotes
  cases hs : s.sheetMusic with
  | none => rfl
  | some sh => rw [scrollTo_currentPulseTime]

theorem shadeNotes_prevPulseTime (c q : Rat) (s : Comp) :
    (shadeNotes c q s).prevPulseTime = s.prevPulseTime := by
  unfold shadeNotes
  cases hs : s.sheetMusic with
  | none => rfl
  | some sh => rw [scrollTo_prevPulseTime]

theorem shadeNotes_isProgrammaticScrolling (c q : Rat) (s : Comp) :
    (shadeNotes c q s).isProgrammaticScrolling = s.isProgrammaticScrolling := by
  unfold shadeNotes
  cases hs : s.sheetMusic with
  | none => rfl
  | some sh => rw [scrollTo_isProgrammaticScrolling]

theorem shadeNotes_scrollTop (c q : Rat) (s : Comp) :
    (shadeNotes c q s).scrollTop = s.scrollTop := by
  unfold shadeNotes
  cases hs : s.sheetMusic with
  | none => rfl
  | some sh => rw [scrollTo_scrollTop]

theorem shadeNotes_shadeCalls_some (c q : Rat) (s : Comp) (sh : Sheet)
    (h : s.sheetMusic = some sh) :
    shadeCalls (shadeNotes c q s) = shadeCalls s ++ [(c, q)] := by
  unfold shadeNotes
  rw [h]
  rw [scrollTo_shadeCalls]
  simp [shadeCalls, shadeOf, List.filterMap_append]

theorem shadeNotes_seekCalls (c q : Rat) (s : Comp) :
    seekCalls (shadeNotes c q s) = seekCalls s := by
  unfold shadeNotes
  cases hs : s.sheetMusic with
  | none => rfl
  | some sh =>
      rw [scrollTo_seekCalls]
      simp [seekCalls, seekOf, List.filterMap_append]

theorem shadeNotes_saveCalls (c q : Rat) (s : Comp) :
    saveCalls (shadeNotes c q s) = saveCalls s := by
  unfold shadeNotes
  cases hs : s.sheetMusic with
  | none => rfl
  | some sh =>
      rw [scrollTo_saveCalls]
      simp [saveCalls, saveOf, List.filterMap_append]

theorem shadeNotes_paintCount (c q : Rat) (s : Comp) :
    paintCount (shadeNotes c q s) = paintCount s := by
  unfold shadeNotes
  cases hs : s.sheetMusic with
  | none => rfl
  | some sh =>
      rw [scrollTo_paintCount]
      simp [paintCount, paintsOf, List.filterMap_append]

/-- With auto-scroll off, a `shadeNotes` call leaves the whole scroll state
(live offset, in-flight animation, last requested target, run count) alone. -/
theorem shadeNotes_scrollState_of_not_autoScroll (c q : Rat) (s : Comp)
    (h : s.st.autoScroll = false) :
    (shadeNotes c q s).scrollTop = s.scrollTop ∧
    (shadeNotes c q s).activeAnim = s.activeAnim ∧
    (shadeNotes c q s).lastScrollPos = s.lastScrollPos ∧
    runCount (shadeNotes c q s) = runCount s := by
  unfold shadeNotes
  split
  · exact ⟨rfl, rfl, rfl, rfl⟩
  · unfold scrollTo
    split
    next hc =>
      have hb : s.st.autoScroll = true := hc.2.2
      rw [h] at hb
      exact Bool.noConfusion hb
    next hc =>
      exact ⟨rfl, rfl, rfl, by simp [runCount, runsOf, List.filterMap_append]⟩

theorem paintSheetMusic_st (s : Comp) : (paintSheetMusic s).st = s.st := by
  unfold paintSheetMusic
  cases hs : s.sheetMusic with
  | none => rfl
  | some sh => rw [shadeNotes_st]

theorem paintSheetMusic_sheetMusic (s : Comp) :
    (paintSheetMusic s).sheetMusic = s.sheetMusic := by
  unfold paintSheetMusic
  split
  · rfl
  · rw [shadeNotes_sheetMusic]

theorem paintSheetMusic_seekCalls (s : Comp) :
    seekCalls (paintSheetMusic s) = seekCalls s := by
  unfold paintSheetMusic
  cases hs : s.sheetMusic with
  | none => rfl
  | some sh =>
      rw [shadeNotes_seekCalls]
      simp [seekCalls, seekOf, List.filterMap_append]

theorem paintSheetMusic_saveCalls (s : Comp) :
    saveCalls (paintSheetMusic s) = saveCalls s := by
  unfold paintSheetMusic
  cases hs : s.sheetMusic with
  | none => rfl
  | some sh =>
      rw [shadeNotes_saveCalls]
      simp [saveCalls, saveOf, List.filterMap_append]

theorem paintSheetMusic_paintCount_some (s : Comp) (sh : Sheet)
    (h : s.sheetMusic = some sh) :
    paintCount (paintSheetMusic s) = paintCount s + 1 := by
  unfold paintSheetMusic
  rw [h]
  rw [shadeNotes_paintCount]
  simp [paintCount, paintsOf, List.filterMap_append]

theorem animate_currentPulseTime (t : Rat) (s : Comp) :
    (animate t s).currentPulseTime = t * s.pulsesPerMs := by
  unfold animate
  rw [shadeNotes_currentPulseTime]

theorem animate_prevPulseTime (t : Rat) (s : Comp) :
    (animate t s).prevPulseTime = t * s.pulsesPerMs := rfl

theorem animate_pulsesPerMs (t : Rat) (s : Comp) :
    (animate t s).pulsesPerMs = s.pulsesPerMs := by
  unfold animate
  rw [shadeNotes_pulsesPerMs]

theorem animate_sheetMusic (t : Rat) (s : Comp) :
    (animate t s).sheetMusic = s.sheetMusic := by
  unfold animate
  rw [shadeNotes_sheetMusic]

theorem animate_shadeCalls_some (t : Rat) (s : Comp) (sh : Sheet)
    (h : s.sheetMusic = some sh) :
    shadeCalls (animate t s) =
      shadeCalls s ++ [(t * s.pulsesPerMs, s.prevPulseTime)] := by
  unfold animate
  have hr : ({ s with currentPulseTime := t * s.pulsesPerMs } : Comp).sheetMusic
      = some sh := h
  have hsub := shadeNotes_shadeCalls_some (t * s.pulsesPerMs) s.prevPulseTime
    { s with currentPulseTime := t * s.pulsesPerMs } sh hr
  calc shadeCalls { shadeNotes (t * s.pulsesPerMs) s.prevPulseTime
          { s with currentPulseTime := t * s.pulsesPerMs } with
          prevPulseTime := t * s.pulsesPerMs }
      = shadeCalls (shadeNotes (t * s.pulsesPerMs) s.prevPulseTime
          { s with currentPulseTime := t * s.pulsesPerMs }) := rfl
    _ = shadeCalls s ++ [(t * s.pulsesPerMs, s.prevPulseTime)] := hsub

/-- C1: on every playback tick `animate(playerTimeMs)` the current pulse is set
to `playerTimeMs * pulsesPerMs`, the Note-Shading Engine is invoked with the
pair `(current, previous)`, and afterwards the previous position becomes a
snapshot of the current one, so a later tick never retroactively changes the
pair an earlier tick delegated; concretely with `pulsesPerMsec = 2` a tick at
100 ms yields current pulse 200 and a following tick at 150 ms yields a shade
call with previous pulse 200 and current pulse 300. -/
theorem C1_animate_tick (s : Comp) (sh : Sheet) (t1 t2 : Rat)
    (h : s.sheetMusic = some sh) :
    (animate t1 s).currentPulseTime = t1 * s.pulsesPerMs ∧
    (animate t1 s).prevPulseTime = t1 * s.pulsesPerMs ∧
    shadeCalls (animate t1 s) =
      shadeCalls s ++ [(t1 * s.pulsesPerMs, s.prevPulseTime)] ∧
    shadeCalls (animate t2 (animate t1 s)) =
      shadeCalls s ++ [(t1 * s.pulsesPerMs, s.prevPulseTime),
                       (t2 * s.pulsesPerMs, t1 * s.pulsesPerMs)] ∧
    (animate 100 baseComp).currentPulseTime = 200 ∧
    shadeCalls (animate 150 (animate 100 baseComp)) = [(200, 0), (300, 200)] := by
  refine ⟨animate_currentPulseTime t1 s, animate_prevPulseTime t1 s,
          animate_shadeCalls_some t1 s sh h, ?_, ?_, ?_⟩
  · have h1 : (animate t1 s).sheetMusic = some sh := by
      rw [animate_sheetMusic]; exact h
    have h2 := animate_shadeCalls_some t2 (animate t1 s) sh h1
    rw [h2, animate_shadeCalls_some t1 s sh h, animate_pulsesPerMs,
        animate_prevPulseTime]
    simp
  · norm_num [animate, shadeNotes, scrollTo, baseComp, testSheet]
  · norm_num [animate, shadeNotes, scrollTo, baseComp, testSheet, shadeCalls,
              shadeOf, List.filterMap_cons, List.filterMap_nil]

/-- Witness for C1: `baseComp` has `pulsesPerMs = 2`; ticking at 100 ms then
150 ms delegates the shade pairs `(100*2, 0)` and `(150*2, 100*2)`. -/
theorem C1_animate_tick_witness :
    (animate 100 baseComp).currentPulseTime = 100 * baseComp.pulsesPerMs ∧
    shadeCalls (animate 150 (animate 100 baseComp)) =
      shadeCalls baseComp ++
        [(100 * baseComp.pulsesPerMs, baseComp.prevPulseTime),
         (150 * baseComp.pulsesPerMs, 100 * baseComp.pulsesPerMs)] := by
  have h := C1_animate_tick baseComp testSheet 100 150 rfl
  exact ⟨h.1, h.2.2.2.1⟩

/-- C2: while the auto-scroll preference is off, no sequence of `shadeNotes`
calls ever mutates the live scroll offset, the in-flight animation, the last
requested target, or the number of animation runs: every `scrollTo` request
issued from `shadeNotes` is a no-op. -/
theorem C2_shadeNotes_never_scrolls (s : Comp) (h : s.st.autoScroll = false)
    (calls : List (Rat × Rat)) :
    (calls.foldl (fun c pr => shadeNotes pr.1 pr.2 c) s).scrollTop = s.scrollTop ∧
    (calls.foldl (fun c pr => shadeNotes pr.1 pr.2 c) s).activeAnim = s.activeAnim ∧
    (calls.foldl (fun c pr => shadeNotes pr.1 pr.2 c) s).lastScrollPos = s.lastScrollPos ∧
    runCount (calls.foldl (fun c pr => shadeNotes pr.1 pr.2 c) s) = runCount s := by
  induction calls generalizing s with
  | nil => exact ⟨rfl, rfl, rfl, rfl⟩
  | cons hd tl ih =>
      simp only [List.foldl_cons]
      have hst : (shadeNotes hd.1 hd.2 s).st.autoScroll = false := by
        rw [shadeNotes_st]; exact h
      obtain ⟨h1, h2, h3, h4⟩ :=
        shadeNotes_scrollState_of_not_autoScroll hd.1 hd.2 s h
      obtain ⟨i1, i2, i3, i4⟩ := ih (shadeNotes hd.1 hd.2 s) hst
      exact ⟨i1.trans h1, i2.trans h2, i3.trans h3, i4.trans h4⟩

/-- Witness for C2: two shading calls on `baseComp` (auto-scroll off) leave the
whole scroll state unchanged. -/
theorem C2_shadeNotes_never_scrolls_witness :
    (([((300 : Rat), (200 : Rat)), (100, 50)]).foldl
        (fun c pr => shadeNotes pr.1 pr.2 c) baseComp).scrollTop = baseComp.scrollTop ∧
    (([((300 : Rat), (200 : Rat)), (100, 50)]).foldl
        (fun c pr => shadeNotes pr.1 pr.2 c) baseComp).activeAnim = baseComp.activeAnim ∧
    (([((300 : Rat), (200 : Rat)), (100, 50)]).foldl
        (fun c pr => shadeNotes pr.1 pr.2 c) baseComp).lastScrollPos = baseComp.lastScrollPos ∧
    runCount (([((300 : Rat), (200 : Rat)), (100, 50)]).foldl
        (fun c pr => shadeNotes pr.1 pr.2 c) baseComp) = runCount baseComp :=
  C2_shadeNotes_never_scrolls baseComp rfl [(300, 200), (100, 50)]

/-- Idempotence of `scrollTo` as a state transformer: the second identical call
is always absorbed (either because the first recorded the target as
`lastScrollPos`, or because both fail the same guard). -/
theorem scrollTo_idem (p : Rat) (s : Comp) :
    scrollTo p (scrollTo p s) = scrollTo p s := by
  by_cases hg : 0 ≤ p ∧ p ≠ s.lastScrollPos ∧ s.st.autoScroll = true
  · have h1 : (scrollTo p s).lastScrollPos = p := by
      unfold scrollTo; rw [if_pos hg]
    exact scrollTo_noop_of_eq_last p _ h1.symm
  · have h0 : scrollTo p s = s := by
      unfold scrollTo; rw [if_neg hg]
    rw [h0]
    exact h0

/-- C3 (amended): calling `scrollTo` twice with the same target and no
intervening different target is idempotent and starts at most one animation
run; it starts exactly one when the first call's guards pass (non-negative
target, different from the last requested one, auto-scroll enabled), the
second call being a no-op because the target then equals the last requested
one.  (As literally stated the claim fails when a guard rejects the first
call, e.g. with auto-scroll disabled: zero runs start, not one.) -/
theorem C3_scrollTo_idempotent (p : Rat) (s : Comp) :
    scrollTo p (scrollTo p s) = scrollTo p s ∧
    runCount (scrollTo p (scrollTo p s)) ≤ runCount s + 1 ∧
    (0 ≤ p → p ≠ s.lastScrollPos → s.st.autoScroll = true →
      runCount (scrollTo p (scrollTo p s)) = runCount s + 1) := by
  refine ⟨scrollTo_idem p s, ?_, ?_⟩
  · rw [scrollTo_idem p s]
    exact scrollTo_runCount_le p s
  · intro h0 h1 h2
    rw [scrollTo_idem p s]
    exact (scrollTo_run p s h0 h1 h2).1

/-- Witness for C3 (amended) at target 5 on `autoComp` (auto-scroll on, last
requested target -1): the double call is absorbed and starts exactly one
run. -/
theorem C3_scrollTo_idempotent_witness :
    scrollTo 5 (scrollTo 5 autoComp) = scrollTo 5 autoComp ∧
    runCount (scrollTo 5 (scrollTo 5 autoComp)) = runCount autoComp + 1 := by
  have h := C3_scrollTo_idempotent 5 autoComp
  exact ⟨h.1, h.2.2 (by decide) (by decide) rfl⟩

/-- Counterexample for C3 as stated: on `baseComp` auto-scroll is disabled, so
the double call `scrollTo 5`; `scrollTo 5` starts zero animation runs, not
exactly one. -/
theorem C3_counterexample :
    ¬ runCount (scrollTo 5 (scrollTo 5 baseComp)) = runCount baseComp + 1 := by
  rw [scrollTo_noop_of_not_autoScroll 5 baseComp rfl,
      scrollTo_noop_of_not_autoScroll 5 baseComp rfl]
  omega

/-- C4: the scroll-event handler disables auto-scroll exactly when the event
was not flagged as programmatic, leaves it on when it was, and in all cases
consumes the `isProgrammaticScrolling` flag. -/
theorem C4_scroll_consumes_flag (s : Comp) :
    (s.st.autoScroll = true → s.isProgrammaticScrolling = false →
        (scroll s).st.autoScroll = false) ∧
    (s.st.autoScroll = true → s.isProgrammaticScrolling = true →
        (scroll s).st.autoScroll = true) ∧
    (scroll s).isProgrammaticScrolling = false := by
  refine ⟨?_, ?_, rfl⟩
  · intro h1 h2
    simp only [scroll]
    have hc : (shadeNotes s.currentPulseTime (s.currentPulseTime - s.measure)
          s).st.autoScroll = true ∧
        (shadeNotes s.currentPulseTime (s.currentPulseTime - s.measure)
          s).isProgrammaticScrolling = false := by
      rw [shadeNotes_st, shadeNotes_isProgrammaticScrolling]
      exact ⟨h1, h2⟩
    rw [if_pos hc]
  · intro h1 h2
    simp only [scroll]
    have hc : ¬ ((shadeNotes s.currentPulseTime (s.currentPulseTime - s.measure)
          s).st.autoScroll = true ∧
        (shadeNotes s.currentPulseTime (s.currentPulseTime - s.measure)
          s).isProgrammaticScrolling = false) := by
      rw [shadeNotes_st, shadeNotes_isProgrammaticScrolling]
      intro hcc
      rw [h2] at hcc
      exact Bool.noConfusion hcc.2
    rw [if_neg hc]
    rw [shadeNotes_st]
    exact h1

/-- Witness for C4: a user-initiated scroll on `autoComp` disables auto-scroll;
a programmatic one on `progComp` keeps it on; both reset the flag. -/
theorem C4_scroll_consumes_flag_witness :
    (scroll autoComp).st.autoScroll = false ∧
    (scroll progComp).st.autoScroll = true ∧
    (scroll progComp).isProgrammaticScrolling = false := by
  have ha := C4_scroll_consumes_flag autoComp
  have hp := C4_scroll_consumes_flag progComp
  exact ⟨ha.1 rfl rfl, hp.2.1 rfl rfl, hp.2.2⟩

/-- C5 (amended): the scroll handler re-shades with the current pulse paired
with a one-measure lookback (`currentPulseTime - measure`), not with the
stored `prevPulseTime`; it leaves both stored positions unchanged. -/
theorem C5_scroll_reshading (s : Comp) (sh : Sheet) (h : s.sheetMusic = some sh) :
    shadeCalls (scroll s) =
      shadeCalls s ++ [(s.currentPulseTime, s.currentPulseTime - s.measure)] ∧
    (scroll s).prevPulseTime = s.prevPulseTime ∧
    (scroll s).currentPulseTime = s.currentPulseTime := by
  refine ⟨?_, ?_, ?_⟩
  · simp only [scroll, shadeCalls]
    split
    · exact shadeNotes_shadeCalls_some _ _ s sh h
    · exact shadeNotes_shadeCalls_some _ _ s sh h
  · simp only [scroll]
    split
    · exact shadeNotes_prevPulseTime _ _ s
    · exact shadeNotes_prevPulseTime _ _ s
  · simp only [scroll]
    split
    · exact shadeNotes_currentPulseTime _ _ s
    · exact shadeNotes_currentPulseTime _ _ s

/-- Witness for C5 (amended) on `baseComp`. -/
theorem C5_scroll_reshading_witness :
    shadeCalls (scroll baseComp) =
      shadeCalls baseComp ++
        [(baseComp.currentPulseTime, baseComp.currentPulseTime - baseComp.measure)] ∧
    (scroll baseComp).prevPulseTime = baseComp.prevPulseTime ∧
    (scroll baseComp).currentPulseTime = baseComp.currentPulseTime :=
  C5_scroll_reshading baseComp testSheet rfl

theorem updateSelection_st (cs : SelectionBounds) (s : Comp) :
    (updateSelection cs s).st = s.st := by
  unfold updateSelection
  split
  · rfl
  · rw [paintSheetMusic_st]

theorem updateSelection_seekCalls_some (cs : SelectionBounds) (s : Comp)
    (sh : Sheet) (h : s.sheetMusic = some sh) :
    seekCalls (updateSelection cs s) = seekCalls s ++ [s.st.selectionStartMs] := by
  unfold updateSelection
  rw [h]
  rw [paintSheetMusic_seekCalls]
  simp [seekCalls, seekOf, List.filterMap_append]

theorem updateSelection_sheetMusic_some (cs : SelectionBounds) (s : Comp)
    (sh : Sheet) (h : s.sheetMusic = some sh) :
    (updateSelection cs s).sheetMusic =
      some { sh with selectionStartPulse := cs.selectionStartPulse,
                     selectionEndPulse := cs.selectionEndPulse } := by
  unfold updateSelection
  rw [h]
  rw [paintSheetMusic_sheetMusic]

theorem updateSelection_paintCount_some (cs : SelectionBounds) (s : Comp)
    (sh : Sheet) (h : s.sheetMusic = some sh) :
    paintCount (updateSelection cs s) = paintCount s + 1 := by
  unfold updateSelection
  rw [h]
  rw [paintSheetMusic_paintCount_some _ _ rfl]
  simp [paintCount, paintsOf, List.filterMap_append]

theorem updateSelection_saveCalls (cs : SelectionBounds) (s : Comp) :
    saveCalls (updateSelection cs s) = saveCalls s := by
  unfold updateSelection
  split
  · rfl
  · rw [paintSheetMusic_saveCalls]
    simp [saveCalls, saveOf, List.filterMap_append]

theorem setSelection_seekCalls (prop : Option Bound) (s : Comp) :
    seekCalls (setSelection prop s) =
      seekCalls (updateSelection (selectionFor prop s.st) s) := by
  simp only [setSelection, seekCalls]
  simp [seekOf, List.filterMap_append]

theorem setSelection_saveCalls (prop : Option Bound) (s : Comp) :
    saveCalls (setSelection prop s) = saveCalls s ++
      [saveDataPayload s.st (selectionFor prop s.st),
       ⟨(selectionFor prop s.st).selectionStartMs,
        (selectionFor prop s.st).selectionEndMs,
        (selectionFor prop s.st).selectionStartPulse,
        (selectionFor prop s.st).selectionEndPulse, none⟩] := by
  have hu : saveOf (updateSelection (selectionFor prop s.st) s).events
      = saveOf s.events := updateSelection_saveCalls (selectionFor prop s.st) s
  simp only [setSelection, saveCalls]
  rw [saveOf_append, hu]
  rfl

theorem loadData_seekCalls (d : SaveData) (s : Comp) :
    seekCalls (loadData d s) =
      seekCalls (updateSelection ⟨d.selectionStartMs, d.selectionEndMs,
        d.selectionStartPulse, d.selectionEndPulse⟩ s) := rfl

/-- Counterexample for C5 as stated: after ticks at 100 ms and 150 ms
(`pulsesPerMs = 2`, `measure = 50`) the stored previous position is 300, but
the scroll handler delegates the pair `(300, 250)`, not `(300, 300)`. -/
theorem C5_counterexample :
    ¬ shadeCalls (scroll twoTickComp) =
        shadeCalls twoTickComp ++
          [(twoTickComp.currentPulseTime, twoTickComp.prevPulseTime)] := by
  have hL : shadeCalls (scroll twoTickComp) = [(200, 0), (300, 200), (300, 250)] := by
    norm_num [twoTickComp, scroll, animate, shadeNotes, scrollTo, baseComp, testSheet,
              shadeCalls, shadeOf, List.filterMap_cons, List.filterMap_nil]
  have hR : shadeCalls twoTickComp ++
      [(twoTickComp.currentPulseTime, twoTickComp.prevPulseTime)] =
      [(200, 0), (300, 200), (300, 300)] := by
    norm_num [twoTickComp, animate, shadeNotes, scrollTo, baseComp, testSheet,
              shadeCalls, shadeOf, List.filterMap_cons, List.filterMap_nil]
  rw [hL, hR]
  decide

theorem shadeNotes_seekOf (c q : Rat) (s : Comp) :
    seekOf (shadeNotes c q s).events = seekOf s.events := shadeNotes_seekCalls c q s

/-- C6 (amended): clearing the selection resets all four fields to the unset
sentinel (`-1, -1, 0, 0`) and hands the persistence collaborator exactly two
snapshots per clear — one through the `saveData` method (cleared bounds merged
over the committed state, `autoScroll` included) and one through the direct
`props.saveData(currentSelection)` call (cleared bounds only).  (The claim's
"exactly one write" is off by one: lines 199 and 200 each invoke
`props.saveData`.) -/
theorem C6_setSelection_clear (s : Comp) :
    (setSelection none s).st.selectionStartMs = -1 ∧
    (setSelection none s).st.selectionEndMs = -1 ∧
    (setSelection none s).st.selectionStartPulse = 0 ∧
    (setSelection none s).st.selectionEndPulse = 0 ∧
    saveCalls (setSelection none s) = saveCalls s ++
      [⟨-1, -1, 0, 0, some s.st.autoScroll⟩, ⟨-1, -1, 0, 0, none⟩] := by
  refine ⟨rfl, rfl, rfl, rfl, ?_⟩
  rw [setSelection_saveCalls]
  rfl

/-- Counterexample for C6 as stated: clearing the selection on `baseComp`
writes two snapshots to the persistence collaborator, not exactly one. -/
theorem C6_counterexample :
    ¬ (saveCalls (setSelection none baseComp)).length =
        (saveCalls baseComp).length + 1 := by
  rw [setSelection_saveCalls, List.length_append]
  simp

/-- C7 (amended): with no score loaded, `shadeNotes`, `paintSheetMusic`,
`initSheetMusic` and `updateSelection` are quiet no-ops that return the state
unchanged, but the claim fails for `click`: it has no guard and dereferences
the absent score (`this.sheetMusic.PulseTimeForPoint`), raising a TypeError
(modelled as `none`). -/
theorem C7_unloaded_guards (c q x y : Rat) (cs : SelectionBounds) (s : Comp)
    (h : s.sheetMusic = none) :
    shadeNotes c q s = s ∧ paintSheetMusic s = s ∧ initSheetMusic s = s ∧
    updateSelection cs s = s ∧ click x y s = none := by
  refine ⟨?_, ?_, ?_, ?_, ?_⟩
  · unfold shadeNotes; rw [h]
  · unfold paintSheetMusic; rw [h]
  · unfold initSheetMusic; rw [h]
  · unfold updateSelection; rw [h]
  · unfold click; rw [h]

/-- Witness for C7 (amended) on the unloaded component. -/
theorem C7_unloaded_guards_witness :
    shadeNotes 300 200 unloadedComp = unloadedComp ∧
    paintSheetMusic unloadedComp = unloadedComp ∧
    initSheetMusic unloadedComp = unloadedComp ∧
    updateSelection ⟨1, 2, 3, 4⟩ unloadedComp = unloadedComp ∧
    click 10 20 unloadedComp = none :=
  C7_unloaded_guards 300 200 10 20 ⟨1, 2, 3, 4⟩ unloadedComp rfl

/-- Counterexample for C7 as stated: a click with no score loaded is not a
quiet no-op — it raises (the model's `none`), because `click` never checks
`sheetMusic` before calling `PulseTimeForPoint` on it. -/
theorem C7_counterexample : click 10 20 unloadedComp = none := rfl

/-- C8: the `noteOff` loop check seeks the playback controller to the
selection start exactly when both bounds are set (non-negative) and the
current playback time `currentPulseTime / pulsesPerMs` exceeds the end bound;
otherwise it requests nothing and leaves the state untouched. -/
theorem C8_noteOff_loop (s : Comp) :
    (0 ≤ s.st.selectionStartMs → 0 ≤ s.st.selectionEndMs →
        s.st.selectionEndMs < s.currentPulseTime / s.pulsesPerMs →
        seekCalls (noteOff s) = seekCalls s ++ [s.st.selectionStartMs]) ∧
    (¬ (0 ≤ s.st.selectionStartMs ∧ 0 ≤ s.st.selectionEndMs ∧
          s.st.selectionEndMs < s.currentPulseTime / s.pulsesPerMs) →
        noteOff s = s) := by
  constructor
  · intro h1 h2 h3
    unfold noteOff
    rw [if_pos ⟨h1, h2, h3⟩]
    simp [seekCalls, seekOf, List.filterMap_append]
  · intro hn
    unfold noteOff
    rw [if_neg hn]

theorem loopComp_past_end :
    loopComp.st.selectionEndMs < loopComp.currentPulseTime / loopComp.pulsesPerMs := by
  norm_num [loopComp, selComp, baseComp]

/-- Witness for C8: on `loopComp` (selection `[500, 600]` ms, playback at
`1300 / 2 = 650` ms) the check seeks to 500; on `baseComp` (no selection) it
does nothing. -/
theorem C8_noteOff_loop_witness :
    seekCalls (noteOff loopComp) = seekCalls loopComp ++ [loopComp.st.selectionStartMs] ∧
    noteOff baseComp = baseComp :=
  ⟨(C8_noteOff_loop loopComp).1 (by decide) (by decide) loopComp_past_end,
   (C8_noteOff_loop baseComp).2 (by decide)⟩

theorem clickResult_seekCalls (sh : Sheet) (x y : Rat) (s : Comp) :
    seekCalls (clickResult sh x y s) =
      seekCalls s ++ [clickedPulse sh s x y / s.pulsesPerMs] := by
  simp only [clickResult, seekCalls]
  rw [shadeNotes_seekOf]
  show seekOf (s.events ++ [Ev.seek (clickedPulse sh s x y / s.pulsesPerMs)]) =
    seekOf s.events ++ [clickedPulse sh s x y / s.pulsesPerMs]
  rw [seekOf_append]
  rfl

theorem clickResult_st_eq (sh : Sheet) (x y : Rat) (s : Comp) :
    (clickResult sh x y s).st =
      { s.st with isSelecting := true,
                  lastClickMs := clickedPulse sh s x y / s.pulsesPerMs,
                  lastClickPulse := clickedPulse sh s x y } := by
  simp only [clickResult]
  rw [shadeNotes_st]
  rfl

theorem clickResult_st (sh : Sheet) (x y : Rat) (s : Comp) :
    (clickResult sh x y s).st.selectionStartMs = s.st.selectionStartMs ∧
    (clickResult sh x y s).st.selectionEndMs = s.st.selectionEndMs ∧
    (clickResult sh x y s).st.selectionStartPulse = s.st.selectionStartPulse ∧
    (clickResult sh x y s).st.selectionEndPulse = s.st.selectionEndPulse ∧
    (clickResult sh x y s).st.isSelecting = true := by
  refine ⟨?_, ?_, ?_, ?_, ?_⟩ <;> rw [clickResult_st_eq]

/-- C9: a click with a score loaded issues exactly one seek request
`setCurrentMs(clickedPulse / pulsesPerMs)` to the external playback controller
before any selection bound is marked: the click leaves all four selection
bounds unchanged (marking happens only in a later `setSelection` call) and
merely arms the pending-selection UI state (`isSelecting`). -/
theorem C9_click_seeks (s : Comp) (sh : Sheet) (x y : Rat)
    (h : s.sheetMusic = some sh) :
    click x y s = some (clickResult sh x y s) ∧
    seekCalls (clickResult sh x y s) =
      seekCalls s ++ [clickedPulse sh s x y / s.pulsesPerMs] ∧
    (clickResult sh x y s).st.selectionStartMs = s.st.selectionStartMs ∧
    (clickResult sh x y s).st.selectionEndMs = s.st.selectionEndMs ∧
    (clickResult sh x y s).st.selectionStartPulse = s.st.selectionStartPulse ∧
    (clickResult sh x y s).st.selectionEndPulse = s.st.selectionEndPulse ∧
    (clickResult sh x y s).st.isSelecting = true := by
  obtain ⟨h1, h2, h3, h4, h5⟩ := clickResult_st sh x y s
  refine ⟨?_, clickResult_seekCalls sh x y s, h1, h2, h3, h4, h5⟩
  unfold click
  rw [h]

/-- Witness for C9 on `baseComp` with `testSheet`. -/
theorem C9_click_seeks_witness :
    click 10 20 baseComp = some (clickResult testSheet 10 20 baseComp) ∧
    seekCalls (clickResult testSheet 10 20 baseComp) =
      seekCalls baseComp ++
        [clickedPulse testSheet baseComp 10 20 / baseComp.pulsesPerMs] ∧
    (clickResult testSheet 10 20 baseComp).st.selectionStartMs =
      baseComp.st.selectionStartMs ∧
    (clickResult testSheet 10 20 baseComp).st.selectionEndMs =
      baseComp.st.selectionEndMs ∧
    (clickResult testSheet 10 20 baseComp).st.selectionStartPulse =
      baseComp.st.selectionStartPulse ∧
    (clickResult testSheet 10 20 baseComp).st.selectionEndPulse =
      baseComp.st.selectionEndPulse ∧
    (clickResult testSheet 10 20 baseComp).st.isSelecting = true :=
  C9_click_seeks baseComp testSheet 10 20 rfl

/-- C10: every call to `updateSelection` with a loaded score writes the bounds
into the rendering collaborator, issues the seek
`setCurrentMs(this.state.selectionStartMs)` reading the committed state as of
call time, and repaints the whole sheet; `setSelection` (marking or clearing)
and `loadData` reach it before their `setState` commits, so a just-cleared or
just-loaded selection seeks with the stale pre-update start time, and every
resize-driven `initSheetMusic` re-issues the seek too. -/
theorem C10_updateSelection_effects (s : Comp) (sh : Sheet)
    (cs : SelectionBounds) (d : SaveData) (h : s.sheetMusic = some sh) :
    (updateSelection cs s).sheetMusic =
      some { sh with selectionStartPulse := cs.selectionStartPulse,
                     selectionEndPulse := cs.selectionEndPulse } ∧
    seekCalls (updateSelection cs s) = seekCalls s ++ [s.st.selectionStartMs] ∧
    paintCount (updateSelection cs s) = paintCount s + 1 ∧
    seekCalls (setSelection none s) = seekCalls s ++ [s.st.selectionStartMs] ∧
    (setSelection none s).st.selectionStartMs = -1 ∧
    seekCalls (loadData d s) = seekCalls s ++ [s.st.selectionStartMs] ∧
    seekCalls (initSheetMusic s) = seekCalls s ++ [s.st.selectionStartMs] := by
  refine ⟨updateSelection_sheetMusic_some cs s sh h,
          updateSelection_seekCalls_some cs s sh h,
          updateSelection_paintCount_some cs s sh h, ?_, rfl, ?_, ?_⟩
  · rw [setSelection_seekCalls]
    exact updateSelection_seekCalls_some _ s sh h
  · rw [loadData_seekCalls]
    exact updateSelection_seekCalls_some _ s sh h
  · unfold initSheetMusic
    rw [h]
    exact updateSelection_seekCalls_some _ s sh h

/-- Witness for C10 on `selComp` (committed selection start 500 ms): the
clear's seek still targets 500 even though the cleared start is -1. -/
theorem C10_updateSelection_effects_witness :
    (updateSelection ⟨7, 8, 9, 10⟩ selComp).sheetMusic =
      some { testSheet with selectionStartPulse := 9, selectionEndPulse := 10 } ∧
    seekCalls (updateSelection ⟨7, 8, 9, 10⟩ selComp) =
      seekCalls selComp ++ [selComp.st.selectionStartMs] ∧
    paintCount (updateSelection ⟨7, 8, 9, 10⟩ selComp) = paintCount selComp + 1 ∧
    seekCalls (setSelection none selComp) =
      seekCalls selComp ++ [selComp.st.selectionStartMs] ∧
    (setSelection none selComp).st.selectionStartMs = -1 ∧
    seekCalls (loadData ⟨20, 30, 40, 50, some true⟩ selComp) =
      seekCalls selComp ++ [selComp.st.selectionStartMs] ∧
    seekCalls (initSheetMusic selComp) =
      seekCalls selComp ++ [selComp.st.selectionStartMs] :=
  C10_updateSelection_effects selComp testSheet ⟨7, 8, 9, 10⟩
    ⟨20, 30, 40, 50, some true⟩ rfl

end Piano
